import Mathlib

set_option autoImplicit false

/-! Shallow embedding of `src/dragonball/src/api/v1/vmm_action.rs` (dragonball VMM
action dispatcher).  Pure data is translated directly; machine integers (`u8`,
`u64`, `usize`) become `Nat` with explicit `% 256` where `u8` arithmetic can wrap.
External collaborators (the VM accessor, device managers, the host filesystem)
are modelled as explicit state, as described in the doc comments below.  All
compile-time device features (`virtio-blk`, `virtio-net`, `virtio-fs`,
`virtio-vsock`, `hotplug`) are taken as enabled. -/

/-- CPU topology record (`crate::vm::CpuTopology`); all four fields are `u8`
in the source. -/
structure CpuTopology where
  threads_per_core : Nat
  cores_per_die : Nat
  dies_per_socket : Nat
  sockets : Nat
  deriving DecidableEq

/-- Machine configuration record (`crate::vm::VmConfigInfo`), restricted to the
fields read or written by `vmm_action.rs`.  `vcpu_count` and `max_vcpu_count`
are `u8`, `mem_size_mib` is `usize`, `vpmu_feature` is `u8`. -/
structure VmConfigInfo where
  vcpu_count : Nat
  max_vcpu_count : Nat
  cpu_pm : String
  cpu_topology : CpuTopology
  vpmu_feature : Nat
  mem_type : String
  mem_file_path : String
  mem_size_mib : Nat
  serial_path : Option String
  deriving DecidableEq

/-- Machine-configuration errors (`VmConfigError`), constructors as used by
`vmm_action.rs`. -/
inductive VmConfigError where
  | UpdateNotAllowedPostBoot
  | InvalidVcpuCount (count : Nat)
  | InvalidMaxVcpuCount (count : Nat)
  | InvalidThreadsPerCore (count : Nat)
  | VcpuCountExceedsMaximum
  | InvalidCpuTopology (count : Nat)
  | InvalidMemorySize (size : Nat)
  | InvalidMemFilePath (path : String)
  deriving DecidableEq

/-- Boot-source errors (`BootSourceConfigError`); the I/O payloads of the two
path errors are modelled as an errno code. -/
inductive BootSourceConfigError where
  | InvalidKernelPath (errno : Nat)
  | InvalidInitrdPath (errno : Nat)
  | InvalidKernelCommandLine
  | UpdateNotAllowedPostBoot
  deriving DecidableEq

/-- Start errors (`crate::error::StartMicroVmError`), restricted to the
constructors that `vmm_action.rs` names or that its tests exercise. -/
inductive StartMicroVmError where
  | MicroVMAlreadyRunning
  | MissingKernelConfig
  | UpcallNotReady
  | UpcallMissVsock
  deriving DecidableEq

/-- Vsock device-manager errors, constructors used by the dispatcher.
The guest CID payload is `u64` in the source. -/
inductive VsockDeviceError where
  | UpdateNotAllowedPostBoot
  | GuestCIDInvalid (cid : Nat)
  deriving DecidableEq

/-- Block device-manager errors, constructors used by the dispatcher and tests. -/
inductive BlockDeviceError where
  | UpdateNotAllowedPostBoot
  | InvalidDeviceId (drive_id : String)
  deriving DecidableEq

/-- Net device-manager errors, constructors used by the dispatcher and tests. -/
inductive VirtioNetDeviceError where
  | UpdateNotAllowedPostBoot
  | InvalidIfaceId (iface_id : String)
  deriving DecidableEq

/-- Fs device-manager errors, constructors used by the dispatcher and tests. -/
inductive FsDeviceError where
  | UpdateNotAllowedPostBoot
  | MicroVMNotRunning
  | AttachBackendFailed (msg : String)
  deriving DecidableEq

/-- Top-level error type (`VmmActionError`).  The `StopMicrovm` variant of the
source enum is never constructed in `vmm_action.rs` and its payload type lives
outside this file, so it is omitted from the model. -/
inductive VmmActionError where
  | InvalidVMID
  | UpcallNotReady
  | BootSource (e : BootSourceConfigError)
  | StartMicroVm (e : StartMicroVmError)
  | MachineConfig (e : VmConfigError)
  | Vsock (e : VsockDeviceError)
  | Block (e : BlockDeviceError)
  | VirtioNet (e : VirtioNetDeviceError)
  | FsDevice (e : FsDeviceError)
  deriving DecidableEq

/-- Success payload (`VmmData`). -/
inductive VmmData where
  | Empty
  | MachineConfiguration (config : VmConfigInfo)
  deriving DecidableEq

/-- Result type (`VmmRequestResult`). -/
abbrev VmmRequestResult := Except VmmActionError VmmData

/-- Boot-source parameters (`BootSourceConfig`, fields read by the dispatcher). -/
structure BootSourceConfig where
  kernel_path : String
  initrd_path : Option String
  boot_args : Option String
  deriving DecidableEq

/-- Vsock device parameters; the dispatcher only reads `guest_cid` (`u64`). -/
structure VsockDeviceConfigInfo where
  guest_cid : Nat
  deriving DecidableEq

/-- Block device parameters; passed through opaquely, keyed by `drive_id`. -/
structure BlockDeviceConfigInfo where
  drive_id : String
  deriving DecidableEq

/-- Block device rate-limiter update parameters. -/
structure BlockDeviceConfigUpdateInfo where
  drive_id : String
  deriving DecidableEq

/-- Net device parameters; passed through opaquely. -/
structure VirtioNetDeviceConfigInfo where
  iface_id : String
  deriving DecidableEq

/-- Net device rate-limiter update parameters. -/
structure VirtioNetDeviceConfigUpdateInfo where
  iface_id : String
  deriving DecidableEq

/-- Fs device parameters; passed through opaquely. -/
structure FsDeviceConfigInfo where
  tag : String
  deriving DecidableEq

/-- Fs backend mount parameters; passed through opaquely. -/
structure FsMountConfigInfo where
  tag : String
  deriving DecidableEq

/-- Fs device rate-limiter update parameters. -/
structure FsDeviceConfigUpdateInfo where
  tag : String
  deriving DecidableEq

/-- Action set (`VmmAction`), one arm per source variant. -/
inductive VmmAction where
  | ConfigureBootSource (cfg : BootSourceConfig)
  | StartMicroVm
  | ShutdownMicroVm
  | GetVmConfiguration
  | SetVmConfiguration (cfg : VmConfigInfo)
  | InsertVsockDevice (cfg : VsockDeviceConfigInfo)
  | InsertBlockDevice (cfg : BlockDeviceConfigInfo)
  | RemoveBlockDevice (drive_id : String)
  | UpdateBlockDevice (cfg : BlockDeviceConfigUpdateInfo)
  | InsertNetworkDevice (cfg : VirtioNetDeviceConfigInfo)
  | UpdateNetworkInterface (cfg : VirtioNetDeviceConfigUpdateInfo)
  | InsertFsDevice (cfg : FsDeviceConfigInfo)
  | ManipulateFsBackendFs (cfg : FsMountConfigInfo)
  | UpdateFsDevice (cfg : FsDeviceConfigUpdateInfo)
  deriving DecidableEq

/-- Kernel configuration (`crate::vm::KernelConfigInfo`): the opened kernel and
initrd files are modelled by their paths, the command line by its string. -/
structure KernelConfigInfo where
  kernel_file : String
  initrd_file : Option String
  cmdline : String
  deriving DecidableEq

instance {ε α : Type} [DecidableEq ε] [DecidableEq α] : DecidableEq (Except ε α) := fun a b =>
  match a, b with
  | Except.error x, Except.error y => decidable_of_iff (x = y) (by simp)
  | Except.error _, Except.ok _ => isFalse (by intro h; exact Except.noConfusion h)
  | Except.ok _, Except.error _ => isFalse (by intro h; exact Except.noConfusion h)
  | Except.ok x, Except.ok y => decidable_of_iff (x = y) (by simp)

/-- Modelled from the spec: the device-class handlers are external collaborators
owning their own devices; the outcome each handler would produce for the single
in-flight operation is carried as explicit state, one slot per operation. -/
structure DeviceMgrOutcomes where
  vsock_insert : Except VsockDeviceError Unit
  blk_insert : Except BlockDeviceError Unit
  blk_update : Except BlockDeviceError Unit
  blk_remove : Except BlockDeviceError Unit
  net_insert : Except VirtioNetDeviceError Unit
  net_update : Except VirtioNetDeviceError Unit
  fs_insert : Except FsDeviceError Unit
  fs_manipulate : Except FsDeviceError Unit
  fs_update : Except FsDeviceError Unit
  deriving DecidableEq

/-- Modelled from the spec: the VM accessor (`crate::vm::Vm`) is an external
collaborator.  `instance_id` is `shared_info().id`; `initialized` is
`is_vm_initialized()`; `config` is `vm_config()`; `hotplug_error` is the error,
if any, that creating a hot-plug device-operation context would report after
boot; `start_result` is the outcome `start_microvm` would produce once its
pre-checks pass. -/
structure VmState where
  instance_id : String
  initialized : Bool
  config : VmConfigInfo
  kernel_config : Option KernelConfigInfo
  hotplug_error : Option StartMicroVmError
  start_result : Except StartMicroVmError Unit
  device_mgr : DeviceMgrOutcomes
  deriving DecidableEq

/-- The `Vmm` instance: `get_vm_mut()` is modelled by the `vm` option;
`event_ctx.exit_evt_triggered` by the flag; `openable_files` models the host
filesystem visible to `File::open` (a path opens successfully iff listed). -/
structure Vmm where
  vm : Option VmState
  exit_evt_triggered : Bool
  openable_files : List String
  deriving DecidableEq

/-- The dispatcher (`VmmService`); the two mpsc channel endpoints live outside
the model, leaving the cached machine configuration. -/
structure VmmService where
  machine_config : VmConfigInfo
  deriving DecidableEq

/-- Modelled from the spec: the hardware ceiling on the topology-derived vCPU
count is 254 (`MAX_SUPPORTED_VCPUS`, defined outside this file; the tests in
`vmm_action.rs` confirm the value through the error message). -/
def MAX_SUPPORTED_VCPUS : Nat := 254

/-- Modelled from the spec: default kernel command line
(`DEFAULT_KERNEL_CMDLINE`, defined outside this file). -/
def DEFAULT_KERNEL_CMDLINE : String := "console=ttyS0 reboot=k panic=1 pci=off"

/-- Modelled from the spec: the fixed maximum size of the kernel command-line
buffer (`dbs_boot::layout::CMDLINE_MAX_SIZE`, defined outside this file). -/
def CMDLINE_MAX_SIZE : Nat := 4096

/-- Modelled from the spec: the default machine configuration
(`VmConfigInfo::default()`, defined outside this file). -/
def VmConfigInfo.default : VmConfigInfo :=
  { vcpu_count := 1
    max_vcpu_count := 1
    cpu_pm := "on"
    cpu_topology :=
      { threads_per_core := 1, cores_per_die := 1, dies_per_socket := 1, sockets := 1 }
    vpmu_feature := 0
    mem_type := "shmem"
    mem_file_path := ""
    mem_size_mib := 128
    serial_path := none }

/-- Modelled from the spec: `Vm::create_device_op_context` is a factory on the
VM accessor for a scoped device-operation token.  Before boot it always
succeeds; after boot it requires the hot-plug infrastructure, reporting
`hotplug_error` (e.g. `UpcallNotReady`) when that is unavailable.  The epoll
manager argument is irrelevant to the outcome in this model. -/
def VmState.create_device_op_context (vm : VmState) (_epoll : Option Unit) :
    Except StartMicroVmError Unit :=
  if vm.initialized then
    match vm.hotplug_error with
    | none => Except.ok ()
    | some e => Except.error e
  else Except.ok ()

/-- Modelled from the spec: `File::open`, surfacing errno 2 (not found) when the
path is not openable in the modelled host filesystem. -/
def file_open (files : List String) (path : String) : Except Nat Unit :=
  if path ∈ files then Except.ok () else Except.error 2

/-- Checked `u8` multiplication (`u8::checked_mul`). -/
def checked_mul_u8 (a b : Nat) : Option Nat :=
  if a * b ≤ 255 then some (a * b) else none

/-- Topology validator `handle_cpu_topology` (source lines 609–635): checks
`threads_per_core ∈ [1,2]`, then forms
`sockets * dies_per_socket * cores_per_die * threads_per_core` by checked `u8`
multiplication, rejecting overflow and results above `MAX_SUPPORTED_VCPUS`, then
requires the result to cover `vcpu_count`; on success it returns the topology
unchanged. -/
def handle_cpu_topology (cpu_topology : CpuTopology) (vcpu_count : Nat) :
    Except VmmActionError CpuTopology :=
  if cpu_topology.threads_per_core < 1 ∨ 2 < cpu_topology.threads_per_core then
    Except.error (.MachineConfig (.InvalidThreadsPerCore cpu_topology.threads_per_core))
  else
    match checked_mul_u8 cpu_topology.sockets cpu_topology.dies_per_socket with
    | none => Except.error (.MachineConfig .VcpuCountExceedsMaximum)
    | some p1 =>
      match checked_mul_u8 p1 cpu_topology.cores_per_die with
      | none => Except.error (.MachineConfig .VcpuCountExceedsMaximum)
      | some p2 =>
        match checked_mul_u8 p2 cpu_topology.threads_per_core with
        | none => Except.error (.MachineConfig .VcpuCountExceedsMaximum)
        | some vcpu_count_from_topo =>
          if MAX_SUPPORTED_VCPUS < vcpu_count_from_topo then
            Except.error (.MachineConfig .VcpuCountExceedsMaximum)
          else if vcpu_count_from_topo < vcpu_count then
            Except.error (.MachineConfig (.InvalidCpuTopology vcpu_count_from_topo))
          else Except.ok cpu_topology

/-- The `u8` product `threads_per_core * cores_per_die * dies_per_socket *
sockets` computed at source lines 373–376 (wrapping `u8` arithmetic). -/
def topoCount (t : CpuTopology) : Nat :=
  (t.threads_per_core * t.cores_per_die * t.dies_per_socket * t.sockets) % 256

/-- Source lines 346–354: overlay `vcpu_count`, rejecting a changed value of 0. -/
def merge_vcpu (config : VmConfigInfo) (mc : VmConfigInfo) :
    Except VmmActionError VmConfigInfo :=
  if config.vcpu_count ≠ mc.vcpu_count then
    if mc.vcpu_count = 0 then
      Except.error (.MachineConfig (.InvalidVcpuCount mc.vcpu_count))
    else Except.ok { config with vcpu_count := mc.vcpu_count }
  else Except.ok config

/-- Source lines 356–371: overlay the CPU topology; a changed topology is
validated by `handle_cpu_topology`, an unchanged one is replaced by the default
topology synthesized from `vcpu_count` and `max_vcpu_count`. -/
def merge_cpu_topology (config : VmConfigInfo) (mc : VmConfigInfo) :
    Except VmmActionError VmConfigInfo :=
  if config.cpu_topology ≠ mc.cpu_topology then
    match handle_cpu_topology mc.cpu_topology config.vcpu_count with
    | Except.error e => Except.error e
    | Except.ok topo => Except.ok { config with cpu_topology := topo }
  else
    let default_cpu_topology : CpuTopology :=
      { threads_per_core := 1, cores_per_die := config.vcpu_count,
        dies_per_socket := 1, sockets := 1 }
    let default_cpu_topology :=
      if config.vcpu_count < mc.max_vcpu_count then
        { default_cpu_topology with cores_per_die := mc.max_vcpu_count }
      else default_cpu_topology
    Except.ok { config with cpu_topology := default_cpu_topology }

/-- Source lines 372–389: reject `max_vcpu_count` below `vcpu_count`, otherwise
store it, silently replaced by the topology-derived count when they differ. -/
def merge_max_vcpu (config : VmConfigInfo) (mc : VmConfigInfo) :
    Except VmmActionError VmConfigInfo :=
  let max_vcpu_from_topo := topoCount config.cpu_topology
  if mc.max_vcpu_count < config.vcpu_count then
    Except.error (.MachineConfig (.InvalidMaxVcpuCount mc.max_vcpu_count))
  else
    let max_vcpu_count :=
      if max_vcpu_from_topo ≠ mc.max_vcpu_count then max_vcpu_from_topo
      else mc.max_vcpu_count
    Except.ok { config with max_vcpu_count := max_vcpu_count }

/-- Source lines 391–407: overlay `cpu_pm` and `mem_type`, validate
`mem_size_mib` (nonzero, at most `0x10_0000`, even), overlay the memory file
path, require it nonempty for hugetlbfs backing, overlay `vpmu_feature`. -/
def merge_mem (config : VmConfigInfo) (mc : VmConfigInfo) :
    Except VmmActionError VmConfigInfo :=
  let config := { config with cpu_pm := mc.cpu_pm, mem_type := mc.mem_type }
  if mc.mem_size_mib = 0 ∨ 0x100000 < mc.mem_size_mib ∨ mc.mem_size_mib % 2 ≠ 0 then
    Except.error (.MachineConfig (.InvalidMemorySize mc.mem_size_mib))
  else
    let config := { config with mem_size_mib := mc.mem_size_mib,
                                mem_file_path := mc.mem_file_path }
    if config.mem_type = "hugetlbfs" ∧ config.mem_file_path = "" then
      Except.error (.MachineConfig (.InvalidMemFilePath ""))
    else Except.ok { config with vpmu_feature := mc.vpmu_feature }

/-- Source lines 409–421: a caller-supplied serial path wins; otherwise an
existing path is kept, defaulting to a path derived from the VM identity. -/
def merge_serial (vm_id : String) (config : VmConfigInfo) (mc : VmConfigInfo) :
    VmConfigInfo :=
  let serial_path :=
    match mc.serial_path with
    | some value => value
    | none =>
      match config.serial_path with
      | none => "/run/dragonball/" ++ vm_id ++ "_com1"
      | some p => p
  { config with serial_path := some serial_path }

/-- The validation/merge pipeline of `set_vm_configuration` (source lines
345–421), producing the complete candidate configuration or the first error. -/
def vm_config_merge (vm_id : String) (config0 mc : VmConfigInfo) :
    Except VmmActionError VmConfigInfo :=
  match merge_vcpu config0 mc with
  | Except.error e => Except.error e
  | Except.ok c1 =>
    match merge_cpu_topology c1 mc with
    | Except.error e => Except.error e
    | Except.ok c2 =>
      match merge_max_vcpu c2 mc with
      | Except.error e => Except.error e
      | Except.ok c3 =>
        match merge_mem c3 mc with
        | Except.error e => Except.error e
        | Except.ok c4 => Except.ok (merge_serial vm_id c4 mc)

/-- `VmmService::set_vm_configuration` (source lines 335–427): post-boot and
missing-VM rejection, then the merge pipeline; only on success are the VM's
configuration and the dispatcher's cached copy replaced by the candidate. -/
def VmmService.set_vm_configuration (svc : VmmService) (vmm : Vmm)
    (machine_config : VmConfigInfo) : VmmRequestResult × VmmService × Vmm :=
  match vmm.vm with
  | none => (Except.error .InvalidVMID, svc, vmm)
  | some vm =>
    if vm.initialized then
      (Except.error (.MachineConfig .UpdateNotAllowedPostBoot), svc, vmm)
    else
      match vm_config_merge vm.instance_id vm.config machine_config with
      | Except.error e => (Except.error e, svc, vmm)
      | Except.ok config =>
        (Except.ok .Empty, { machine_config := config },
         { vmm with vm := some { vm with config := config } })

/-- `VmmService::configure_boot_source` (source lines 274–310): post-boot and
missing-VM rejection, kernel and initrd open checks, bounded command-line
construction, then installation of the kernel configuration on the VM. -/
def VmmService.configure_boot_source (svc : VmmService) (vmm : Vmm)
    (boot_source_config : BootSourceConfig) : VmmRequestResult × VmmService × Vmm :=
  match vmm.vm with
  | none => (Except.error .InvalidVMID, svc, vmm)
  | some vm =>
    if vm.initialized then
      (Except.error (.BootSource .UpdateNotAllowedPostBoot), svc, vmm)
    else
      match file_open vmm.openable_files boot_source_config.kernel_path with
      | Except.error e => (Except.error (.BootSource (.InvalidKernelPath e)), svc, vmm)
      | Except.ok _ =>
        let initrd_check : Except VmmActionError Unit :=
          match boot_source_config.initrd_path with
          | none => Except.ok ()
          | some path =>
            match file_open vmm.openable_files path with
            | Except.error e => Except.error (.BootSource (.InvalidInitrdPath e))
            | Except.ok _ => Except.ok ()
        match initrd_check with
        | Except.error e => (Except.error e, svc, vmm)
        | Except.ok _ =>
          let boot_args :=
            (boot_source_config.boot_args).getD DEFAULT_KERNEL_CMDLINE
          if CMDLINE_MAX_SIZE < boot_args.length then
            (Except.error (.BootSource .InvalidKernelCommandLine), svc, vmm)
          else
            let kernel_config : KernelConfigInfo :=
              { kernel_file := boot_source_config.kernel_path,
                initrd_file := boot_source_config.initrd_path,
                cmdline := boot_args }
            (Except.ok .Empty, svc,
             { vmm with vm := some { vm with kernel_config := some kernel_config } })

/-- `VmmService::start_microvm` (source lines 312–326): already-running and
missing-VM rejection; the missing-kernel check and the boot outcome live in the
external `Vm::start_microvm`, modelled by `kernel_config` and `start_result`,
with a successful boot marking the VM initialized. -/
def VmmService.start_microvm (svc : VmmService) (vmm : Vmm) :
    VmmRequestResult × VmmService × Vmm :=
  match vmm.vm with
  | none => (Except.error .InvalidVMID, svc, vmm)
  | some vm =>
    if vm.initialized then
      (Except.error (.StartMicroVm .MicroVMAlreadyRunning), svc, vmm)
    else
      match vm.kernel_config with
      | none => (Except.error (.StartMicroVm .MissingKernelConfig), svc, vmm)
      | some _ =>
        match vm.start_result with
        | Except.error e => (Except.error (.StartMicroVm e), svc, vmm)
        | Except.ok _ =>
          (Except.ok .Empty, svc, { vmm with vm := some { vm with initialized := true } })

/-- `VmmService::shutdown_microvm` (source lines 328–332): set the exit flag and
acknowledge. -/
def VmmService.shutdown_microvm (svc : VmmService) (vmm : Vmm) :
    VmmRequestResult × VmmService × Vmm :=
  (Except.ok .Empty, svc, { vmm with exit_evt_triggered := true })

/-- `VmmService::add_vsock_device` (source lines 429–459): post-boot rejection,
then rejection of guest CIDs at most 2, then context acquisition (any failure
reported as `Vsock UpdateNotAllowedPostBoot`), then delegation to the vsock
device manager. -/
def VmmService.add_vsock_device (svc : VmmService) (vmm : Vmm)
    (config : VsockDeviceConfigInfo) : VmmRequestResult × VmmService × Vmm :=
  match vmm.vm with
  | none => (Except.error .InvalidVMID, svc, vmm)
  | some vm =>
    if vm.initialized then
      (Except.error (.Vsock .UpdateNotAllowedPostBoot), svc, vmm)
    else if config.guest_cid ≤ 2 then
      (Except.error (.Vsock (.GuestCIDInvalid config.guest_cid)), svc, vmm)
    else
      match vm.create_device_op_context none with
      | Except.error _ => (Except.error (.Vsock .UpdateNotAllowedPostBoot), svc, vmm)
      | Except.ok _ =>
        match vm.device_mgr.vsock_insert with
        | Except.ok _ => (Except.ok .Empty, svc, vmm)
        | Except.error e => (Except.error (.Vsock e), svc, vmm)

/-- `VmmService::add_block_device` (source lines 461–483): context acquisition
with `UpcallNotReady` surfaced as the distinct top-level error and every other
failure as `Block UpdateNotAllowedPostBoot`, then delegation to the block
device manager. -/
def VmmService.add_block_device (svc : VmmService) (vmm : Vmm)
    (_config : BlockDeviceConfigInfo) : VmmRequestResult × VmmService × Vmm :=
  match vmm.vm with
  | none => (Except.error .InvalidVMID, svc, vmm)
  | some vm =>
    match vm.create_device_op_context (some ()) with
    | Except.error e =>
      if e = .UpcallNotReady then (Except.error .UpcallNotReady, svc, vmm)
      else (Except.error (.Block .UpdateNotAllowedPostBoot), svc, vmm)
    | Except.ok _ =>
      match vm.device_mgr.blk_insert with
      | Except.ok _ => (Except.ok .Empty, svc, vmm)
      | Except.error e => (Except.error (.Block e), svc, vmm)

/-- `VmmService::update_blk_rate_limiters` (source lines 485–497): unconditional
delegation to the block device manager; no lifecycle-state check is made. -/
def VmmService.update_blk_rate_limiters (svc : VmmService) (vmm : Vmm)
    (_config : BlockDeviceConfigUpdateInfo) : VmmRequestResult × VmmService × Vmm :=
  match vmm.vm with
  | none => (Except.error .InvalidVMID, svc, vmm)
  | some vm =>
    match vm.device_mgr.blk_update with
    | Except.ok _ => (Except.ok .Empty, svc, vmm)
    | Except.error e => (Except.error (.Block e), svc, vmm)

/-- `VmmService::remove_block_device` (source lines 499–515): context
acquisition with every failure (including upcall-not-ready) reported as
`Block UpdateNotAllowedPostBoot`, then delegation to the block device manager. -/
def VmmService.remove_block_device (svc : VmmService) (vmm : Vmm)
    (_drive_id : String) : VmmRequestResult × VmmService × Vmm :=
  match vmm.vm with
  | none => (Except.error .InvalidVMID, svc, vmm)
  | some vm =>
    match vm.create_device_op_context (some ()) with
    | Except.error _ => (Except.error (.Block .UpdateNotAllowedPostBoot), svc, vmm)
    | Except.ok _ =>
      match vm.device_mgr.blk_remove with
      | Except.ok _ => (Except.ok .Empty, svc, vmm)
      | Except.error e => (Except.error (.Block e), svc, vmm)

/-- `VmmService::add_virtio_net_device` (source lines 517–540): context
acquisition mapping `MicroVMAlreadyRunning` to `VirtioNet
UpdateNotAllowedPostBoot`, `UpcallNotReady` to the distinct top-level error and
anything else to `StartMicroVm`, then delegation to the net device manager. -/
def VmmService.add_virtio_net_device (svc : VmmService) (vmm : Vmm)
    (_config : VirtioNetDeviceConfigInfo) : VmmRequestResult × VmmService × Vmm :=
  match vmm.vm with
  | none => (Except.error .InvalidVMID, svc, vmm)
  | some vm =>
    match vm.create_device_op_context (some ()) with
    | Except.error e =>
      if e = .MicroVMAlreadyRunning then
        (Except.error (.VirtioNet .UpdateNotAllowedPostBoot), svc, vmm)
      else if e = .UpcallNotReady then (Except.error .UpcallNotReady, svc, vmm)
      else (Except.error (.StartMicroVm e), svc, vmm)
    | Except.ok _ =>
      match vm.device_mgr.net_insert with
      | Except.ok _ => (Except.ok .Empty, svc, vmm)
      | Except.error e => (Except.error (.VirtioNet e), svc, vmm)

/-- `VmmService::update_net_rate_limiters` (source lines 542–553): unconditional
delegation to the net device manager; no lifecycle-state check is made. -/
def VmmService.update_net_rate_limiters (svc : VmmService) (vmm : Vmm)
    (_config : VirtioNetDeviceConfigUpdateInfo) : VmmRequestResult × VmmService × Vmm :=
  match vmm.vm with
  | none => (Except.error .InvalidVMID, svc, vmm)
  | some vm =>
    match vm.device_mgr.net_update with
    | Except.ok _ => (Except.ok .Empty, svc, vmm)
    | Except.error e => (Except.error (.VirtioNet e), svc, vmm)

/-- Modelled from the source feature gates: the `hotplug` cargo feature,
enabled in the builds the spec describes. -/
def cfg_feature_hotplug : Bool := true

/-- `VmmService::add_fs_device` (source lines 555–572): post-boot rejection when
hot-plug is not compiled in, context acquisition with failure reported as
`FsDevice UpdateNotAllowedPostBoot`, then delegation to the fs device manager. -/
def VmmService.add_fs_device (svc : VmmService) (vmm : Vmm)
    (_config : FsDeviceConfigInfo) : VmmRequestResult × VmmService × Vmm :=
  match vmm.vm with
  | none => (Except.error .InvalidVMID, svc, vmm)
  | some vm =>
    let hotplug := vm.initialized
    if ¬cfg_feature_hotplug ∧ hotplug then
      (Except.error (.FsDevice .UpdateNotAllowedPostBoot), svc, vmm)
    else
      match vm.create_device_op_context none with
      | Except.error _ => (Except.error (.FsDevice .UpdateNotAllowedPostBoot), svc, vmm)
      | Except.ok _ =>
        match vm.device_mgr.fs_insert with
        | Except.ok _ => (Except.ok .Empty, svc, vmm)
        | Except.error e => (Except.error (.FsDevice e), svc, vmm)

/-- `VmmService::manipulate_fs_backend_fs` (source lines 574–589): rejection
with `FsDevice MicroVMNotRunning` when the VM is not initialized, then
delegation to the fs device manager. -/
def VmmService.manipulate_fs_backend_fs (svc : VmmService) (vmm : Vmm)
    (_config : FsMountConfigInfo) : VmmRequestResult × VmmService × Vmm :=
  match vmm.vm with
  | none => (Except.error .InvalidVMID, svc, vmm)
  | some vm =>
    if ¬vm.initialized then
      (Except.error (.FsDevice .MicroVMNotRunning), svc, vmm)
    else
      match vm.device_mgr.fs_manipulate with
      | Except.ok _ => (Except.ok .Empty, svc, vmm)
      | Except.error e => (Except.error (.FsDevice e), svc, vmm)

/-- `VmmService::update_fs_rate_limiters` (source lines 591–606): rejection with
`FsDevice MicroVMNotRunning` when the VM is not initialized, then delegation to
the fs device manager. -/
def VmmService.update_fs_rate_limiters (svc : VmmService) (vmm : Vmm)
    (_config : FsDeviceConfigUpdateInfo) : VmmRequestResult × VmmService × Vmm :=
  match vmm.vm with
  | none => (Except.error .InvalidVMID, svc, vmm)
  | some vm =>
    if ¬vm.initialized then
      (Except.error (.FsDevice .MicroVMNotRunning), svc, vmm)
    else
      match vm.device_mgr.fs_update with
      | Except.ok _ => (Except.ok .Empty, svc, vmm)
      | Except.error e => (Except.error (.FsDevice e), svc, vmm)

/-- The dispatch of `VmmService::run_vmm_action` (source lines 201–263) on one
received action; the channel transport (`try_recv`/`send_response`) lies outside
the model.  `GetVmConfiguration` answers from the dispatcher's cached copy. -/
def VmmService.run_vmm_action (svc : VmmService) (vmm : Vmm) (request : VmmAction) :
    VmmRequestResult × VmmService × Vmm :=
  match request with
  | .ConfigureBootSource boot_source_body => svc.configure_boot_source vmm boot_source_body
  | .StartMicroVm => svc.start_microvm vmm
  | .ShutdownMicroVm => svc.shutdown_microvm vmm
  | .GetVmConfiguration => (Except.ok (.MachineConfiguration svc.machine_config), svc, vmm)
  | .SetVmConfiguration machine_config => svc.set_vm_configuration vmm machine_config
  | .InsertVsockDevice vsock_cfg => svc.add_vsock_device vmm vsock_cfg
  | .InsertBlockDevice block_device_config => svc.add_block_device vmm block_device_config
  | .UpdateBlockDevice blk_update => svc.update_blk_rate_limiters vmm blk_update
  | .RemoveBlockDevice drive_id => svc.remove_block_device vmm drive_id
  | .InsertNetworkDevice virtio_net_cfg => svc.add_virtio_net_device vmm virtio_net_cfg
  | .UpdateNetworkInterface netif_update => svc.update_net_rate_limiters vmm netif_update
  | .InsertFsDevice fs_cfg => svc.add_fs_device vmm fs_cfg
  | .ManipulateFsBackendFs fs_mount_cfg => svc.manipulate_fs_backend_fs vmm fs_mount_cfg
  | .UpdateFsDevice fs_update_cfg => svc.update_fs_rate_limiters vmm fs_update_cfg

/-- `VmmService::new` (source lines 190–198): the cached machine configuration
starts as the default configuration (the channel endpoints lie outside the
model). -/
def VmmService.new : VmmService := { machine_config := VmConfigInfo.default }

/-! Sample states used by concrete evaluations. -/

/-- Device-manager outcome state in which every delegated operation succeeds. -/
def sampleMgr : DeviceMgrOutcomes :=
  { vsock_insert := Except.ok (), blk_insert := Except.ok (), blk_update := Except.ok ()
    blk_remove := Except.ok (), net_insert := Except.ok (), net_update := Except.ok ()
    fs_insert := Except.ok (), fs_manipulate := Except.ok (), fs_update := Except.ok () }

/-- An uninitialized VM carrying the default configuration. -/
def sampleVm : VmState :=
  { instance_id := "vm1", initialized := false, config := VmConfigInfo.default
    kernel_config := none, hotplug_error := none, start_result := Except.ok ()
    device_mgr := sampleMgr }

/-- A `Vmm` holding `sampleVm`. -/
def sampleVmm : Vmm :=
  { vm := some sampleVm, exit_evt_triggered := false, openable_files := [] }

/-- A freshly created dispatcher. -/
def sampleSvc : VmmService := { machine_config := VmConfigInfo.default }

/-! Characterizations of the merge pipeline stages. -/

theorem merge_vcpu_ok (config mc : VmConfigInfo)
    (h : config.vcpu_count = mc.vcpu_count ∨ mc.vcpu_count ≠ 0) :
    merge_vcpu config mc = Except.ok { config with vcpu_count := mc.vcpu_count } := by
  by_cases he : config.vcpu_count = mc.vcpu_count
  · unfold merge_vcpu
    rw [if_neg (by simp [he])]
    exact congrArg Except.ok (by rw [← he])
  · unfold merge_vcpu
    rw [if_pos he, if_neg (h.resolve_left he)]

theorem handle_cpu_topology_ok (t t' : CpuTopology) (n : Nat)
    (h : handle_cpu_topology t n = Except.ok t') : t' = t := by
  unfold handle_cpu_topology at h
  repeat' split at h
  all_goals simp_all

theorem merge_cpu_topology_ok_of_ne (config mc : VmConfigInfo)
    (h : config.cpu_topology ≠ mc.cpu_topology) (t : CpuTopology)
    (ht : handle_cpu_topology mc.cpu_topology config.vcpu_count = Except.ok t) :
    merge_cpu_topology config mc =
      Except.ok { config with cpu_topology := mc.cpu_topology } := by
  have heq := handle_cpu_topology_ok _ _ _ ht
  unfold merge_cpu_topology
  rw [if_pos h, ht, heq]

theorem merge_cpu_topology_default (config mc : VmConfigInfo)
    (h : config.cpu_topology = mc.cpu_topology) :
    merge_cpu_topology config mc =
      Except.ok { config with cpu_topology :=
        { threads_per_core := 1
          cores_per_die := (if config.vcpu_count < mc.max_vcpu_count then
            mc.max_vcpu_count else config.vcpu_count)
          dies_per_socket := 1, sockets := 1 } } := by
  unfold merge_cpu_topology
  rw [if_neg (by simp [h])]
  by_cases hc : config.vcpu_count < mc.max_vcpu_count
  · simp [hc]
  · simp [hc]

theorem merge_max_vcpu_ok (config mc : VmConfigInfo)
    (h : config.vcpu_count ≤ mc.max_vcpu_count) :
    merge_max_vcpu config mc =
      Except.ok { config with max_vcpu_count := topoCount config.cpu_topology } := by
  unfold merge_max_vcpu
  rw [if_neg (by omega)]
  by_cases hd : topoCount config.cpu_topology ≠ mc.max_vcpu_count
  · simp [hd]
  · push_neg at hd
    simp [hd]

theorem merge_max_vcpu_err (config mc : VmConfigInfo)
    (h : mc.max_vcpu_count < config.vcpu_count) :
    merge_max_vcpu config mc =
      Except.error (.MachineConfig (.InvalidMaxVcpuCount mc.max_vcpu_count)) := by
  unfold merge_max_vcpu
  rw [if_pos h]

theorem merge_mem_ok (config mc : VmConfigInfo)
    (h1 : ¬(mc.mem_size_mib = 0 ∨ 0x100000 < mc.mem_size_mib ∨ mc.mem_size_mib % 2 ≠ 0))
    (h2 : ¬(mc.mem_type = "hugetlbfs" ∧ mc.mem_file_path = "")) :
    merge_mem config mc =
      Except.ok { config with
                  cpu_pm := mc.cpu_pm
                  mem_type := mc.mem_type
                  mem_size_mib := mc.mem_size_mib
                  mem_file_path := mc.mem_file_path
                  vpmu_feature := mc.vpmu_feature } := by
  simp only [merge_mem]
  rw [if_neg h1, if_neg (by simpa using h2)]

theorem merge_mem_err_size (config mc : VmConfigInfo)
    (h1 : mc.mem_size_mib = 0 ∨ 0x100000 < mc.mem_size_mib ∨ mc.mem_size_mib % 2 ≠ 0) :
    merge_mem config mc =
      Except.error (.MachineConfig (.InvalidMemorySize mc.mem_size_mib)) := by
  unfold merge_mem
  rw [if_pos h1]

theorem merge_mem_err_path (config mc : VmConfigInfo)
    (h1 : ¬(mc.mem_size_mib = 0 ∨ 0x100000 < mc.mem_size_mib ∨ mc.mem_size_mib % 2 ≠ 0))
    (h2 : mc.mem_type = "hugetlbfs" ∧ mc.mem_file_path = "") :
    merge_mem config mc =
      Except.error (.MachineConfig (.InvalidMemFilePath "")) := by
  unfold merge_mem
  rw [if_neg h1, if_pos (by simpa using h2)]

/-- Reduction of `set_vm_configuration` on a present, uninitialized VM. -/
theorem set_vm_configuration_uninit (svc : VmmService) (vmm : Vmm) (vm : VmState)
    (mc : VmConfigInfo) (hvm : vmm.vm = some vm) (hinit : vm.initialized = false) :
    svc.set_vm_configuration vmm mc =
      match vm_config_merge vm.instance_id vm.config mc with
      | Except.error e => (Except.error e, svc, vmm)
      | Except.ok config =>
        (Except.ok .Empty, { machine_config := config },
         { vmm with vm := some { vm with config := config } }) := by
  unfold VmmService.set_vm_configuration
  rw [hvm]
  simp [hinit]

/-- Claim C1: a `SetVmConfiguration` action that returns an error leaves both
the VM's stored machine configuration and the dispatcher's cached machine
configuration (indeed the whole service and `Vmm` state) exactly as they were:
the merged candidate is only written back on success. -/
theorem set_vm_configuration_all_or_nothing (svc : VmmService) (vmm : Vmm)
    (mc : VmConfigInfo) (e : VmmActionError)
    (h : (svc.set_vm_configuration vmm mc).1 = Except.error e) :
    (svc.set_vm_configuration vmm mc).2.1 = svc ∧
      (svc.set_vm_configuration vmm mc).2.2 = vmm := by
  unfold VmmService.set_vm_configuration at h ⊢
  cases hvm : vmm.vm with
  | none => exact ⟨rfl, rfl⟩
  | some vm =>
    rw [hvm] at h
    by_cases hinit : vm.initialized
    · simp [hinit]
    · simp only [Bool.not_eq_true] at hinit
      simp only [hinit, if_false] at h ⊢
      cases hmerge : vm_config_merge vm.instance_id vm.config mc with
      | error e2 => simp [hmerge]
      | ok c =>
        rw [hmerge] at h
        exact Except.noConfusion h

/-- Witness for C1: submitting a configuration with `vcpu_count = 0` to an
uninitialized VM fails and leaves the service and VM state untouched. -/
theorem set_vm_configuration_all_or_nothing_witness :
    (sampleSvc.set_vm_configuration sampleVmm
        { VmConfigInfo.default with vcpu_count := 0 }).1
      = Except.error (.MachineConfig (.InvalidVcpuCount 0)) ∧
    (sampleSvc.set_vm_configuration sampleVmm
        { VmConfigInfo.default with vcpu_count := 0 }).2.1 = sampleSvc ∧
    (sampleSvc.set_vm_configuration sampleVmm
        { VmConfigInfo.default with vcpu_count := 0 }).2.2 = sampleVmm :=
  ⟨by decide,
   set_vm_configuration_all_or_nothing sampleSvc sampleVmm
     { VmConfigInfo.default with vcpu_count := 0 }
     (.MachineConfig (.InvalidVcpuCount 0)) (by decide)⟩

/-- The topology stored by a successful merge: the caller's topology when it
differs from the current one, otherwise the synthesized default topology. -/
def mergedTopo (c0 mc : VmConfigInfo) : CpuTopology :=
  if c0.cpu_topology = mc.cpu_topology then
    { threads_per_core := 1
      cores_per_die := (if mc.vcpu_count < mc.max_vcpu_count then
        mc.max_vcpu_count else mc.vcpu_count)
      dies_per_socket := 1
      sockets := 1 }
  else mc.cpu_topology

/-- The serial path stored by a successful merge. -/
def mergedSerial (vm_id : String) (c0 mc : VmConfigInfo) : String :=
  match mc.serial_path with
  | some value => value
  | none =>
    match c0.serial_path with
    | none => "/run/dragonball/" ++ vm_id ++ "_com1"
    | some p => p

/-- The complete configuration stored by a successful merge. -/
def mergedConfig (vm_id : String) (c0 mc : VmConfigInfo) : VmConfigInfo :=
  { vcpu_count := mc.vcpu_count
    max_vcpu_count := topoCount (mergedTopo c0 mc)
    cpu_pm := mc.cpu_pm
    cpu_topology := mergedTopo c0 mc
    vpmu_feature := mc.vpmu_feature
    mem_type := mc.mem_type
    mem_file_path := mc.mem_file_path
    mem_size_mib := mc.mem_size_mib
    serial_path := some (mergedSerial vm_id c0 mc) }

theorem merge_cpu_topology_merged (c0 mc : VmConfigInfo)
    (ht : c0.cpu_topology ≠ mc.cpu_topology →
      handle_cpu_topology mc.cpu_topology mc.vcpu_count = Except.ok mc.cpu_topology) :
    merge_cpu_topology { c0 with vcpu_count := mc.vcpu_count } mc =
      Except.ok { c0 with vcpu_count := mc.vcpu_count, cpu_topology := mergedTopo c0 mc } := by
  by_cases htop : c0.cpu_topology = mc.cpu_topology
  · rw [merge_cpu_topology_default { c0 with vcpu_count := mc.vcpu_count } mc htop]
    simp [mergedTopo, htop]
  · rw [merge_cpu_topology_ok_of_ne { c0 with vcpu_count := mc.vcpu_count } mc htop
      mc.cpu_topology (ht htop)]
    simp [mergedTopo, htop]

theorem vm_config_merge_ok (vm_id : String) (c0 mc : VmConfigInfo)
    (hv : c0.vcpu_count = mc.vcpu_count ∨ mc.vcpu_count ≠ 0)
    (ht : c0.cpu_topology ≠ mc.cpu_topology →
      handle_cpu_topology mc.cpu_topology mc.vcpu_count = Except.ok mc.cpu_topology)
    (hmax : mc.vcpu_count ≤ mc.max_vcpu_count)
    (hmem : ¬(mc.mem_size_mib = 0 ∨ 0x100000 < mc.mem_size_mib ∨ mc.mem_size_mib % 2 ≠ 0))
    (hpath : ¬(mc.mem_type = "hugetlbfs" ∧ mc.mem_file_path = "")) :
    vm_config_merge vm_id c0 mc = Except.ok (mergedConfig vm_id c0 mc) := by
  have h1 := merge_vcpu_ok c0 mc hv
  have h2 := merge_cpu_topology_merged c0 mc ht
  have h3 := merge_max_vcpu_ok { c0 with vcpu_count := mc.vcpu_count, cpu_topology := mergedTopo c0 mc } mc hmax
  have h4 := merge_mem_ok { c0 with vcpu_count := mc.vcpu_count, cpu_topology := mergedTopo c0 mc, max_vcpu_count := topoCount (mergedTopo c0 mc) } mc hmem hpath
  simp only [vm_config_merge, h1, h2, h3, h4]
  simp [mergedConfig, merge_serial, mergedSerial]

theorem vm_config_merge_err_max (vm_id : String) (c0 mc : VmConfigInfo)
    (hv : c0.vcpu_count = mc.vcpu_count ∨ mc.vcpu_count ≠ 0)
    (ht : c0.cpu_topology ≠ mc.cpu_topology →
      handle_cpu_topology mc.cpu_topology mc.vcpu_count = Except.ok mc.cpu_topology)
    (hmax : mc.max_vcpu_count < mc.vcpu_count) :
    vm_config_merge vm_id c0 mc =
      Except.error (.MachineConfig (.InvalidMaxVcpuCount mc.max_vcpu_count)) := by
  have h1 := merge_vcpu_ok c0 mc hv
  have h2 := merge_cpu_topology_merged c0 mc ht
  have h3 := merge_max_vcpu_err { c0 with vcpu_count := mc.vcpu_count, cpu_topology := mergedTopo c0 mc } mc hmax
  simp only [vm_config_merge, h1, h2, h3]

theorem vm_config_merge_err_memsize (vm_id : String) (c0 mc : VmConfigInfo)
    (hv : c0.vcpu_count = mc.vcpu_count ∨ mc.vcpu_count ≠ 0)
    (ht : c0.cpu_topology ≠ mc.cpu_topology →
      handle_cpu_topology mc.cpu_topology mc.vcpu_count = Except.ok mc.cpu_topology)
    (hmax : mc.vcpu_count ≤ mc.max_vcpu_count)
    (hmem : mc.mem_size_mib = 0 ∨ 0x100000 < mc.mem_size_mib ∨ mc.mem_size_mib % 2 ≠ 0) :
    vm_config_merge vm_id c0 mc =
      Except.error (.MachineConfig (.InvalidMemorySize mc.mem_size_mib)) := by
  have h1 := merge_vcpu_ok c0 mc hv
  have h2 := merge_cpu_topology_merged c0 mc ht
  have h3 := merge_max_vcpu_ok { c0 with vcpu_count := mc.vcpu_count, cpu_topology := mergedTopo c0 mc } mc hmax
  have h4 := merge_mem_err_size { c0 with vcpu_count := mc.vcpu_count, cpu_topology := mergedTopo c0 mc, max_vcpu_count := topoCount (mergedTopo c0 mc) } mc hmem
  simp only [vm_config_merge, h1, h2, h3, h4]

theorem vm_config_merge_err_mempath (vm_id : String) (c0 mc : VmConfigInfo)
    (hv : c0.vcpu_count = mc.vcpu_count ∨ mc.vcpu_count ≠ 0)
    (ht : c0.cpu_topology ≠ mc.cpu_topology →
      handle_cpu_topology mc.cpu_topology mc.vcpu_count = Except.ok mc.cpu_topology)
    (hmax : mc.vcpu_count ≤ mc.max_vcpu_count)
    (hmem : ¬(mc.mem_size_mib = 0 ∨ 0x100000 < mc.mem_size_mib ∨ mc.mem_size_mib % 2 ≠ 0))
    (hpath : mc.mem_type = "hugetlbfs" ∧ mc.mem_file_path = "") :
    vm_config_merge vm_id c0 mc =
      Except.error (.MachineConfig (.InvalidMemFilePath "")) := by
  have h1 := merge_vcpu_ok c0 mc hv
  have h2 := merge_cpu_topology_merged c0 mc ht
  have h3 := merge_max_vcpu_ok { c0 with vcpu_count := mc.vcpu_count, cpu_topology := mergedTopo c0 mc } mc hmax
  have h4 := merge_mem_err_path { c0 with vcpu_count := mc.vcpu_count, cpu_topology := mergedTopo c0 mc, max_vcpu_count := topoCount (mergedTopo c0 mc) } mc hmem hpath
  simp only [vm_config_merge, h1, h2, h3, h4]

/-- Conversion: a successful topology validation necessarily returns the input
topology, so mere success pins down the returned value. -/
theorem handle_cpu_topology_ok_self (topo : CpuTopology) (n : Nat)
    (h : ∃ t, handle_cpu_topology topo n = Except.ok t) :
    handle_cpu_topology topo n = Except.ok topo := by
  obtain ⟨t, h⟩ := h
  have := handle_cpu_topology_ok _ _ _ h
  rwa [this] at h

/-- Claim C2: on an uninitialized VM whose merged configuration passes the other
checks, a `max_vcpu_count` below the merged `vcpu_count` fails with
`InvalidMaxVcpuCount`; otherwise the action succeeds even when `max_vcpu_count`
disagrees with the topology-derived count, and the stored `max_vcpu_count` is
silently the count derived from the stored topology. -/
theorem set_vm_configuration_max_vcpu_claim (svc : VmmService) (vmm : Vmm)
    (vm : VmState) (mc : VmConfigInfo)
    (hvm : vmm.vm = some vm) (hinit : vm.initialized = false)
    (hv : vm.config.vcpu_count = mc.vcpu_count ∨ mc.vcpu_count ≠ 0)
    (ht : vm.config.cpu_topology ≠ mc.cpu_topology →
      ∃ t, handle_cpu_topology mc.cpu_topology mc.vcpu_count = Except.ok t)
    (hmem : ¬(mc.mem_size_mib = 0 ∨ 0x100000 < mc.mem_size_mib ∨ mc.mem_size_mib % 2 ≠ 0))
    (hpath : ¬(mc.mem_type = "hugetlbfs" ∧ mc.mem_file_path = "")) :
    (mc.max_vcpu_count < mc.vcpu_count →
      (svc.set_vm_configuration vmm mc).1 =
        Except.error (.MachineConfig (.InvalidMaxVcpuCount mc.max_vcpu_count)))
    ∧ (mc.vcpu_count ≤ mc.max_vcpu_count →
      ∃ cfg, svc.set_vm_configuration vmm mc =
          (Except.ok .Empty, { machine_config := cfg },
           { vmm with vm := some { vm with config := cfg } })
        ∧ cfg.max_vcpu_count = topoCount cfg.cpu_topology) := by
  have ht' : vm.config.cpu_topology ≠ mc.cpu_topology →
      handle_cpu_topology mc.cpu_topology mc.vcpu_count = Except.ok mc.cpu_topology :=
    fun hne => handle_cpu_topology_ok_self mc.cpu_topology mc.vcpu_count (ht hne)
  rw [set_vm_configuration_uninit svc vmm vm mc hvm hinit]
  constructor
  · intro hlt
    rw [vm_config_merge_err_max vm.instance_id vm.config mc hv ht' hlt]
  · intro hle
    refine ⟨mergedConfig vm.instance_id vm.config mc, ?_, ?_⟩
    · rw [vm_config_merge_ok vm.instance_id vm.config mc hv ht' hle hmem hpath]
    · simp [mergedConfig]

/-- A configuration whose `max_vcpu_count` undercuts its `vcpu_count` (from the
repository's own test input). -/
def mcBadMax : VmConfigInfo :=
  { VmConfigInfo.default with vcpu_count := 4, max_vcpu_count := 2 }

/-- The topology `1 thread × 128 cores × 1 die × 1 socket` (from the
repository's own test input). -/
def topo128 : CpuTopology :=
  { threads_per_core := 1, cores_per_die := 128, dies_per_socket := 1, sockets := 1 }

/-- The repository's own "topology and max_vcpu_count are not matched" test
input: `vcpu_count = 16`, `max_vcpu_count = 32`, topology `topo128`. -/
def mcTopo128 : VmConfigInfo :=
  { VmConfigInfo.default with vcpu_count := 16, max_vcpu_count := 32, cpu_topology := topo128 }

/-- Witness for C2: on the default uninitialized VM, `vcpu_count = 4` with
`max_vcpu_count = 2` is rejected, while `vcpu_count = 16, max_vcpu_count = 32`
with topology `1×128×1×1` succeeds and stores the topology-derived count. -/
theorem set_vm_configuration_max_vcpu_claim_witness :
    (sampleSvc.set_vm_configuration sampleVmm mcBadMax).1 =
      Except.error (.MachineConfig (.InvalidMaxVcpuCount 2)) ∧
    ∃ cfg, sampleSvc.set_vm_configuration sampleVmm mcTopo128 =
        (Except.ok .Empty, { machine_config := cfg },
         { sampleVmm with vm := some { sampleVm with config := cfg } })
      ∧ cfg.max_vcpu_count = topoCount cfg.cpu_topology :=
  ⟨(set_vm_configuration_max_vcpu_claim sampleSvc sampleVmm sampleVm mcBadMax
      rfl rfl (by decide) (fun h => absurd rfl h) (by decide) (by decide)).1 (by decide),
   (set_vm_configuration_max_vcpu_claim sampleSvc sampleVmm sampleVm mcTopo128
      rfl rfl (by decide) (fun _ => ⟨topo128, by decide⟩)
      (by decide) (by decide)).2 (by decide)⟩

/-- Claim C8: on an uninitialized VM whose other fields are valid, the
memory-size check fails with `InvalidMemorySize` exactly when `mem_size_mib` is
0, odd, or above `0x10_0000`; every even value in `[2, 0x10_0000]` passes it. -/
theorem set_vm_configuration_mem_size_claim (svc : VmmService) (vmm : Vmm)
    (vm : VmState) (mc : VmConfigInfo)
    (hvm : vmm.vm = some vm) (hinit : vm.initialized = false)
    (hv : vm.config.vcpu_count = mc.vcpu_count ∨ mc.vcpu_count ≠ 0)
    (ht : vm.config.cpu_topology ≠ mc.cpu_topology →
      ∃ t, handle_cpu_topology mc.cpu_topology mc.vcpu_count = Except.ok t)
    (hmax : mc.vcpu_count ≤ mc.max_vcpu_count) :
    (svc.set_vm_configuration vmm mc).1 =
        Except.error (.MachineConfig (.InvalidMemorySize mc.mem_size_mib))
      ↔ (mc.mem_size_mib = 0 ∨ mc.mem_size_mib % 2 = 1 ∨ 0x100000 < mc.mem_size_mib) := by
  have ht' : vm.config.cpu_topology ≠ mc.cpu_topology →
      handle_cpu_topology mc.cpu_topology mc.vcpu_count = Except.ok mc.cpu_topology :=
    fun hne => handle_cpu_topology_ok_self mc.cpu_topology mc.vcpu_count (ht hne)
  rw [set_vm_configuration_uninit svc vmm vm mc hvm hinit]
  by_cases hmem : mc.mem_size_mib = 0 ∨ 0x100000 < mc.mem_size_mib ∨ mc.mem_size_mib % 2 ≠ 0
  · rw [vm_config_merge_err_memsize vm.instance_id vm.config mc hv ht' hmax hmem]
    simp only [true_iff, iff_true]
    omega
  · by_cases hpath : mc.mem_type = "hugetlbfs" ∧ mc.mem_file_path = ""
    · rw [vm_config_merge_err_mempath vm.instance_id vm.config mc hv ht' hmax hmem hpath]
      constructor
      · intro h
        simp at h
      · intro h
        omega
    · rw [vm_config_merge_ok vm.instance_id vm.config mc hv ht' hmax hmem hpath]
      constructor
      · intro h
        simp at h
      · intro h
        omega

/-- Witness for C8: on the default uninitialized VM, `mem_size_mib = 3` is
rejected as an invalid memory size while `mem_size_mib = 2` is not. -/
theorem set_vm_configuration_mem_size_claim_witness :
    ((sampleSvc.set_vm_configuration sampleVmm
        { VmConfigInfo.default with mem_size_mib := 3 }).1 =
      Except.error (.MachineConfig (.InvalidMemorySize 3))
      ↔ ((3 : Nat) = 0 ∨ (3 : Nat) % 2 = 1 ∨ (0x100000 : Nat) < 3)) ∧
    ((sampleSvc.set_vm_configuration sampleVmm
        { VmConfigInfo.default with mem_size_mib := 2 }).1 =
      Except.error (.MachineConfig (.InvalidMemorySize 2))
      ↔ ((2 : Nat) = 0 ∨ (2 : Nat) % 2 = 1 ∨ (0x100000 : Nat) < 2)) :=
  ⟨set_vm_configuration_mem_size_claim sampleSvc sampleVmm sampleVm
      { VmConfigInfo.default with mem_size_mib := 3 }
      rfl rfl (by decide) (fun h => absurd rfl h) (by decide),
   set_vm_configuration_mem_size_claim sampleSvc sampleVmm sampleVm
      { VmConfigInfo.default with mem_size_mib := 2 }
      rfl rfl (by decide) (fun h => absurd rfl h) (by decide)⟩

/-- Claim C3: the topology validator rejects `threads_per_core` outside `[1,2]`
with `InvalidThreadsPerCore`; otherwise it fails with `VcpuCountExceedsMaximum`
exactly when the `u8` evaluation of
`sockets * dies_per_socket * cores_per_die * threads_per_core` overflows at some
step of the checked multiplication chain or its value exceeds 254; otherwise it
fails with `InvalidCpuTopology` when the product is below the target vCPU
count; otherwise it succeeds, returning the topology unchanged. -/
theorem handle_cpu_topology_claim (t : CpuTopology) (n : Nat) :
    handle_cpu_topology t n =
      if t.threads_per_core < 1 ∨ 2 < t.threads_per_core then
        Except.error (.MachineConfig (.InvalidThreadsPerCore t.threads_per_core))
      else if 255 < t.sockets * t.dies_per_socket
          ∨ 255 < t.sockets * t.dies_per_socket * t.cores_per_die
          ∨ 254 < t.sockets * t.dies_per_socket * t.cores_per_die * t.threads_per_core then
        Except.error (.MachineConfig .VcpuCountExceedsMaximum)
      else if t.sockets * t.dies_per_socket * t.cores_per_die * t.threads_per_core < n then
        Except.error (.MachineConfig
          (.InvalidCpuTopology (t.sockets * t.dies_per_socket * t.cores_per_die * t.threads_per_core)))
      else Except.ok t := by
  by_cases h1 : t.threads_per_core < 1 ∨ 2 < t.threads_per_core
  · simp only [handle_cpu_topology]
    rw [if_pos h1, if_pos h1]
  · by_cases hp1 : t.sockets * t.dies_per_socket ≤ 255
    · by_cases hp2 : t.sockets * t.dies_per_socket * t.cores_per_die ≤ 255
      · by_cases hceil : 254 < t.sockets * t.dies_per_socket * t.cores_per_die * t.threads_per_core
        · by_cases hp3 : t.sockets * t.dies_per_socket * t.cores_per_die * t.threads_per_core ≤ 255
          · have hm : MAX_SUPPORTED_VCPUS <
                t.sockets * t.dies_per_socket * t.cores_per_die * t.threads_per_core := hceil
            simp [handle_cpu_topology, checked_mul_u8, h1, hp1, hp2, hp3, hceil, hm]
          · simp [handle_cpu_topology, checked_mul_u8, h1, hp1, hp2, hp3, hceil]
        · have hp3 : t.sockets * t.dies_per_socket * t.cores_per_die * t.threads_per_core ≤ 255 := by
            omega
          have hm : ¬ MAX_SUPPORTED_VCPUS <
              t.sockets * t.dies_per_socket * t.cores_per_die * t.threads_per_core := hceil
          have hb1 : ¬ 255 < t.sockets * t.dies_per_socket := by omega
          have hb2 : ¬ 255 < t.sockets * t.dies_per_socket * t.cores_per_die := by omega
          simp [handle_cpu_topology, checked_mul_u8, h1, hp1, hp2, hp3, hceil, hm, hb1, hb2]
      · have ha : 255 < t.sockets * t.dies_per_socket * t.cores_per_die := by omega
        simp [handle_cpu_topology, checked_mul_u8, h1, hp1, hp2, ha]
    · have ha : 255 < t.sockets * t.dies_per_socket := by omega
      simp [handle_cpu_topology, checked_mul_u8, h1, hp1, ha]

/-- A configuration with 255 vCPUs and no new topology: the default-topology
path of `set_vm_configuration` never calls `handle_cpu_topology`, so the
254-vCPU ceiling is not enforced on it. -/
def mcOverflow : VmConfigInfo :=
  { VmConfigInfo.default with vcpu_count := 255, max_vcpu_count := 255 }

/-- Claim C4 (failing evaluation): submitting `vcpu_count = 255,
max_vcpu_count = 255` with the topology left at its current (default) value on
an uninitialized VM is accepted, and the stored topology-derived vCPU count is
255, above the `MAX_SUPPORTED_VCPUS` ceiling of 254 — the default-topology
branch skips the ceiling check. -/
theorem set_vm_configuration_ceiling_violation :
    (sampleSvc.set_vm_configuration sampleVmm mcOverflow).1 = Except.ok .Empty ∧
    (sampleSvc.set_vm_configuration sampleVmm mcOverflow).2.1.machine_config.vcpu_count = 255 ∧
    topoCount
      (sampleSvc.set_vm_configuration sampleVmm mcOverflow).2.1.machine_config.cpu_topology
      = 255 ∧
    MAX_SUPPORTED_VCPUS <
      topoCount
        (sampleSvc.set_vm_configuration sampleVmm mcOverflow).2.1.machine_config.cpu_topology := by
  refine ⟨by decide, by decide, by decide, by decide⟩

/-- Counterexample to Claim C7: applying the repository's own successful test
configuration (`vcpu_count = 16`, `max_vcpu_count = 32`, topology `1×128×1×1`)
twice on an uninitialized default VM yields two empty acknowledgments but two
different stored configurations: the first stores `cores_per_die = 128` and
`max_vcpu_count = 128`, the second replaces the (now matching) topology by the
synthesized default with `cores_per_die = 32` and `max_vcpu_count = 32`. -/
theorem set_vm_configuration_not_idempotent :
    (sampleSvc.set_vm_configuration sampleVmm mcTopo128).1 = Except.ok .Empty ∧
    ((sampleSvc.set_vm_configuration sampleVmm mcTopo128).2.1.set_vm_configuration
        (sampleSvc.set_vm_configuration sampleVmm mcTopo128).2.2 mcTopo128).1 = Except.ok .Empty ∧
    (sampleSvc.set_vm_configuration sampleVmm mcTopo128).2.1.machine_config.cpu_topology.cores_per_die = 128 ∧
    (sampleSvc.set_vm_configuration sampleVmm mcTopo128).2.1.machine_config.max_vcpu_count = 128 ∧
    ((sampleSvc.set_vm_configuration sampleVmm mcTopo128).2.1.set_vm_configuration
        (sampleSvc.set_vm_configuration sampleVmm mcTopo128).2.2 mcTopo128).2.1.machine_config.cpu_topology.cores_per_die = 32 ∧
    ((sampleSvc.set_vm_configuration sampleVmm mcTopo128).2.1.set_vm_configuration
        (sampleSvc.set_vm_configuration sampleVmm mcTopo128).2.2 mcTopo128).2.1.machine_config.max_vcpu_count = 32 ∧
    ((sampleSvc.set_vm_configuration sampleVmm mcTopo128).2.1.set_vm_configuration
        (sampleSvc.set_vm_configuration sampleVmm mcTopo128).2.2 mcTopo128).2.1.machine_config ≠
      (sampleSvc.set_vm_configuration sampleVmm mcTopo128).2.1.machine_config := by
  refine ⟨by decide, by decide, by decide, by decide, by decide, by decide, by decide⟩

/-- The default topology that `set_vm_configuration` synthesizes for a
configuration (1 thread per core, 1 die, 1 socket, `cores_per_die` the larger
of `vcpu_count` and `max_vcpu_count`). -/
def defaultTopoFor (mc : VmConfigInfo) : CpuTopology :=
  { threads_per_core := 1
    cores_per_die := (if mc.vcpu_count < mc.max_vcpu_count then
      mc.max_vcpu_count else mc.vcpu_count)
    dies_per_socket := 1
    sockets := 1 }

theorem mergedTopo_canonical (c0 mc : VmConfigInfo)
    (htopo : mc.cpu_topology = defaultTopoFor mc) :
    mergedTopo c0 mc = mc.cpu_topology := by
  unfold mergedTopo
  split
  · rw [htopo]
    rfl
  · rfl

theorem mergedSerial_idem (vm_id : String) (c0 mc : VmConfigInfo) :
    mergedSerial vm_id (mergedConfig vm_id c0 mc) mc = mergedSerial vm_id c0 mc := by
  cases hs : mc.serial_path <;> simp [mergedSerial, mergedConfig, hs]

theorem mergedConfig_congr (vm_id : String) (a b mc : VmConfigInfo)
    (hT : mergedTopo a mc = mergedTopo b mc)
    (hS : mergedSerial vm_id a mc = mergedSerial vm_id b mc) :
    mergedConfig vm_id a mc = mergedConfig vm_id b mc := by
  unfold mergedConfig
  rw [hT, hS]

/-- Claim C7 (amended): `SetVmConfiguration` is idempotent for valid inputs
whose `cpu_topology` is the synthesized default topology for the input (in
particular for inputs carrying no real topology preference): the first and the
second identical submission both return the empty acknowledgment, and the
second stores exactly the configuration stored by the first, leaving service
and VM state unchanged. -/
theorem set_vm_configuration_idempotent_default_topology
    (svc : VmmService) (vmm : Vmm) (vm : VmState) (mc : VmConfigInfo)
    (hvm : vmm.vm = some vm) (hinit : vm.initialized = false)
    (hv : vm.config.vcpu_count = mc.vcpu_count ∨ mc.vcpu_count ≠ 0)
    (ht : vm.config.cpu_topology ≠ mc.cpu_topology →
      ∃ t, handle_cpu_topology mc.cpu_topology mc.vcpu_count = Except.ok t)
    (hmax : mc.vcpu_count ≤ mc.max_vcpu_count)
    (hmem : ¬(mc.mem_size_mib = 0 ∨ 0x100000 < mc.mem_size_mib ∨ mc.mem_size_mib % 2 ≠ 0))
    (hpath : ¬(mc.mem_type = "hugetlbfs" ∧ mc.mem_file_path = ""))
    (htopo : mc.cpu_topology = defaultTopoFor mc) :
    ∃ cfg,
      svc.set_vm_configuration vmm mc =
        (Except.ok .Empty, { machine_config := cfg },
         { vmm with vm := some { vm with config := cfg } }) ∧
      VmmService.set_vm_configuration { machine_config := cfg }
          { vmm with vm := some { vm with config := cfg } } mc =
        (Except.ok .Empty, { machine_config := cfg },
         { vmm with vm := some { vm with config := cfg } }) := by
  have ht' : vm.config.cpu_topology ≠ mc.cpu_topology →
      handle_cpu_topology mc.cpu_topology mc.vcpu_count = Except.ok mc.cpu_topology :=
    fun hne => handle_cpu_topology_ok_self mc.cpu_topology mc.vcpu_count (ht hne)
  have hC1 := vm_config_merge_ok vm.instance_id vm.config mc hv ht' hmax hmem hpath
  refine ⟨mergedConfig vm.instance_id vm.config mc, ?_, ?_⟩
  · rw [set_vm_configuration_uninit svc vmm vm mc hvm hinit, hC1]
  · have hCtop : (mergedConfig vm.instance_id vm.config mc).cpu_topology = mc.cpu_topology :=
      mergedTopo_canonical vm.config mc htopo
    have ht2 : (mergedConfig vm.instance_id vm.config mc).cpu_topology ≠ mc.cpu_topology →
        handle_cpu_topology mc.cpu_topology mc.vcpu_count = Except.ok mc.cpu_topology :=
      fun hne => absurd hCtop hne
    have hC2 := vm_config_merge_ok vm.instance_id (mergedConfig vm.instance_id vm.config mc) mc
      (Or.inl rfl) ht2 hmax hmem hpath
    have hT : mergedTopo (mergedConfig vm.instance_id vm.config mc) mc = mergedTopo vm.config mc := by
      rw [mergedTopo_canonical (mergedConfig vm.instance_id vm.config mc) mc htopo,
        mergedTopo_canonical vm.config mc htopo]
    have hidem : mergedConfig vm.instance_id (mergedConfig vm.instance_id vm.config mc) mc =
        mergedConfig vm.instance_id vm.config mc :=
      mergedConfig_congr vm.instance_id (mergedConfig vm.instance_id vm.config mc) vm.config mc
        hT (mergedSerial_idem vm.instance_id vm.config mc)
    rw [set_vm_configuration_uninit { machine_config := mergedConfig vm.instance_id vm.config mc }
      { vmm with vm := some { vm with config := mergedConfig vm.instance_id vm.config mc } }
      { vm with config := mergedConfig vm.instance_id vm.config mc } mc rfl hinit]
    dsimp only
    rw [hC2, hidem]

/-- A valid configuration whose topology already is the synthesized default
topology (2 vCPUs, max 4, topology `1×4×1×1`). -/
def mcIdem : VmConfigInfo :=
  { VmConfigInfo.default with vcpu_count := 2, max_vcpu_count := 4, cpu_topology := { threads_per_core := 1, cores_per_die := 4, dies_per_socket := 1, sockets := 1 } }

/-- Witness for the amended C7: the canonical-topology configuration `mcIdem`
is idempotent on the default uninitialized VM. -/
theorem set_vm_configuration_idempotent_default_topology_witness :
    ∃ cfg,
      sampleSvc.set_vm_configuration sampleVmm mcIdem =
        (Except.ok .Empty, { machine_config := cfg },
         { sampleVmm with vm := some { sampleVm with config := cfg } }) ∧
      VmmService.set_vm_configuration { machine_config := cfg }
          { sampleVmm with vm := some { sampleVm with config := cfg } } mcIdem =
        (Except.ok .Empty, { machine_config := cfg },
         { sampleVmm with vm := some { sampleVm with config := cfg } }) :=
  set_vm_configuration_idempotent_default_topology sampleSvc sampleVmm sampleVm mcIdem
    rfl rfl (by decide)
    (fun _ => ⟨{ threads_per_core := 1, cores_per_die := 4, dies_per_socket := 1, sockets := 1 }, by decide⟩)
    (by decide) (by decide) (by decide) (by decide)

/-- A running VM whose hot-plug context creation fails with `UpcallNotReady`. -/
def vmUp : VmState :=
  { sampleVm with initialized := true, hotplug_error := some StartMicroVmError.UpcallNotReady }

/-- A `Vmm` holding `vmUp`. -/
def vmmUp : Vmm := { sampleVmm with vm := some vmUp }

/-- Counterexample to Claim C5: on a VM whose device-operation context fails
with upcall-not-ready, block-device REMOVE does not surface the distinct
top-level `UpcallNotReady` error — it reports the ordinary post-boot rejection
`Block UpdateNotAllowedPostBoot` instead. -/
theorem remove_block_device_upcall_counterexample :
    (sampleSvc.remove_block_device vmmUp "drive0").1 =
      Except.error (.Block .UpdateNotAllowedPostBoot) ∧
    (sampleSvc.remove_block_device vmmUp "drive0").1 ≠ Except.error .UpcallNotReady := by
  refine ⟨by decide, by decide⟩

/-- Claim C5 (amended): when the device-operation context cannot be obtained
because the upcall channel is not ready, block-device insert surfaces the
distinct top-level `UpcallNotReady` error, distinguishable from the ordinary
post-boot rejection and from the invalid-VM-handle error; block-device remove,
however, maps every context failure — including upcall-not-ready — to
`Block UpdateNotAllowedPostBoot`. -/
theorem block_device_upcall_not_ready_claim (svc : VmmService) (vmm : Vmm) (vm : VmState)
    (cfg : BlockDeviceConfigInfo) (drive_id : String)
    (hvm : vmm.vm = some vm)
    (hctx : vm.create_device_op_context (some ()) = Except.error .UpcallNotReady) :
    (svc.add_block_device vmm cfg).1 = Except.error .UpcallNotReady ∧
    (svc.add_block_device vmm cfg).1 ≠ Except.error (.Block .UpdateNotAllowedPostBoot) ∧
    (svc.add_block_device vmm cfg).1 ≠ Except.error .InvalidVMID ∧
    (svc.remove_block_device vmm drive_id).1 = Except.error (.Block .UpdateNotAllowedPostBoot) := by
  simp [VmmService.add_block_device, VmmService.remove_block_device, hvm, hctx]

/-- Witness for the amended C5: concrete evaluation on `vmmUp`. -/
theorem block_device_upcall_not_ready_claim_witness :
    (sampleSvc.add_block_device vmmUp { drive_id := "d" }).1 = Except.error .UpcallNotReady ∧
    (sampleSvc.add_block_device vmmUp { drive_id := "d" }).1 ≠
      Except.error (.Block .UpdateNotAllowedPostBoot) ∧
    (sampleSvc.add_block_device vmmUp { drive_id := "d" }).1 ≠ Except.error .InvalidVMID ∧
    (sampleSvc.remove_block_device vmmUp "d2").1 =
      Except.error (.Block .UpdateNotAllowedPostBoot) :=
  block_device_upcall_not_ready_claim sampleSvc vmmUp vmUp { drive_id := "d" } "d2" rfl (by decide)

/-- Counterexample to Claim C6: on an uninitialized VM, block-device and
net-device rate-limiter updates are not rejected with a `MicroVMNotRunning`
error — the dispatcher delegates unconditionally (here the delegated operation
succeeds, so the whole action succeeds). -/
theorem update_blk_rate_limiters_uninit_counterexample :
    (sampleSvc.update_blk_rate_limiters sampleVmm { drive_id := "1" }).1 =
      Except.ok VmmData.Empty ∧
    (sampleSvc.update_net_rate_limiters sampleVmm { iface_id := "1" }).1 =
      Except.ok VmmData.Empty := by
  refine ⟨by decide, by decide⟩

/-- Claim C6 (amended): on an uninitialized VM, the filesystem backend
attach/detach action and the filesystem rate-limiter update are rejected by the
dispatcher with `FsDevice MicroVMNotRunning` before delegating; the block and
network rate-limiter updates carry no such dispatcher-level check and are
delegated to their device managers unconditionally. -/
theorem rate_limiter_init_check_claim (svc : VmmService) (vmm : Vmm) (vm : VmState)
    (bcfg : BlockDeviceConfigUpdateInfo) (ncfg : VirtioNetDeviceConfigUpdateInfo)
    (fcfg : FsDeviceConfigUpdateInfo) (mcfg : FsMountConfigInfo)
    (hvm : vmm.vm = some vm) (hinit : vm.initialized = false) :
    (svc.manipulate_fs_backend_fs vmm mcfg).1 = Except.error (.FsDevice .MicroVMNotRunning) ∧
    (svc.update_fs_rate_limiters vmm fcfg).1 = Except.error (.FsDevice .MicroVMNotRunning) ∧
    (svc.update_blk_rate_limiters vmm bcfg).1 =
      (match vm.device_mgr.blk_update with
       | Except.ok _ => Except.ok VmmData.Empty
       | Except.error e => Except.error (.Block e)) ∧
    (svc.update_net_rate_limiters vmm ncfg).1 =
      (match vm.device_mgr.net_update with
       | Except.ok _ => Except.ok VmmData.Empty
       | Except.error e => Except.error (.VirtioNet e)) := by
  refine ⟨?_, ?_, ?_, ?_⟩
  · simp [VmmService.manipulate_fs_backend_fs, hvm, hinit]
  · simp [VmmService.update_fs_rate_limiters, hvm, hinit]
  · simp only [VmmService.update_blk_rate_limiters, hvm]
    cases hb : vm.device_mgr.blk_update <;> simp [hb]
  · simp only [VmmService.update_net_rate_limiters, hvm]
    cases hn : vm.device_mgr.net_update <;> simp [hn]

/-- Witness for the amended C6: concrete evaluation on the uninitialized
`sampleVmm`. -/
theorem rate_limiter_init_check_claim_witness :
    (sampleSvc.manipulate_fs_backend_fs sampleVmm { tag := "fs" }).1 =
      Except.error (.FsDevice .MicroVMNotRunning) ∧
    (sampleSvc.update_fs_rate_limiters sampleVmm { tag := "fs" }).1 =
      Except.error (.FsDevice .MicroVMNotRunning) ∧
    (sampleSvc.update_blk_rate_limiters sampleVmm { drive_id := "1" }).1 =
      (match sampleVm.device_mgr.blk_update with
       | Except.ok _ => Except.ok VmmData.Empty
       | Except.error e => Except.error (.Block e)) ∧
    (sampleSvc.update_net_rate_limiters sampleVmm { iface_id := "1" }).1 =
      (match sampleVm.device_mgr.net_update with
       | Except.ok _ => Except.ok VmmData.Empty
       | Except.error e => Except.error (.VirtioNet e)) :=
  rate_limiter_init_check_claim sampleSvc sampleVmm sampleVm
    { drive_id := "1" } { iface_id := "1" } { tag := "fs" } { tag := "fs" } rfl rfl

/-- Claim C9: on an uninitialized VM, vsock insertion rejects guest CIDs 0, 1
and 2 with `GuestCIDInvalid` before any device-operation context is created,
while CIDs of 3 and above pass the dispatcher pre-check and the action is
delegated to the vsock device manager, whose outcome becomes the response. -/
theorem add_vsock_device_guest_cid_claim (svc : VmmService) (vmm : Vmm) (vm : VmState)
    (cfg : VsockDeviceConfigInfo)
    (hvm : vmm.vm = some vm) (hinit : vm.initialized = false) :
    (cfg.guest_cid ≤ 2 →
      (svc.add_vsock_device vmm cfg).1 =
        Except.error (.Vsock (.GuestCIDInvalid cfg.guest_cid))) ∧
    (2 < cfg.guest_cid →
      (svc.add_vsock_device vmm cfg).1 =
        (match vm.device_mgr.vsock_insert with
         | Except.ok _ => Except.ok VmmData.Empty
         | Except.error e => Except.error (.Vsock e))) := by
  constructor
  · intro hle
    simp [VmmService.add_vsock_device, hvm, hinit, hle]
  · intro hgt
    have hle : ¬ cfg.guest_cid ≤ 2 := by omega
    simp only [VmmService.add_vsock_device, hvm, hinit, Bool.false_eq_true, if_false, hle,
      VmState.create_device_op_context]
    cases hv : vm.device_mgr.vsock_insert <;> simp [hv]

/-- Witness for C9: guest CID 0 is rejected and guest CID 3 is delegated on the
uninitialized `sampleVmm`. -/
theorem add_vsock_device_guest_cid_claim_witness :
    (sampleSvc.add_vsock_device sampleVmm { guest_cid := 0 }).1 =
      Except.error (.Vsock (.GuestCIDInvalid 0)) ∧
    (sampleSvc.add_vsock_device sampleVmm { guest_cid := 3 }).1 =
      (match sampleVm.device_mgr.vsock_insert with
       | Except.ok _ => Except.ok VmmData.Empty
       | Except.error e => Except.error (.Vsock e)) :=
  ⟨(add_vsock_device_guest_cid_claim sampleSvc sampleVmm sampleVm { guest_cid := 0 } rfl rfl).1
     (by decide),
   (add_vsock_device_guest_cid_claim sampleSvc sampleVmm sampleVm { guest_cid := 3 } rfl rfl).2
     (by decide)⟩

/-! Frame lemmas: no handler other than `set_vm_configuration` touches the
dispatcher's cached machine configuration. -/

theorem configure_boot_source_frame (svc : VmmService) (vmm : Vmm) (cfg : BootSourceConfig) :
    (svc.configure_boot_source vmm cfg).2.1 = svc := by
  unfold VmmService.configure_boot_source
  repeat' split
  all_goals dsimp only
  all_goals (repeat' split)
  all_goals rfl

theorem start_microvm_frame (svc : VmmService) (vmm : Vmm) :
    (svc.start_microvm vmm).2.1 = svc := by
  unfold VmmService.start_microvm
  repeat' split
  all_goals rfl

theorem add_vsock_device_frame (svc : VmmService) (vmm : Vmm) (cfg : VsockDeviceConfigInfo) :
    (svc.add_vsock_device vmm cfg).2.1 = svc := by
  unfold VmmService.add_vsock_device
  repeat' split
  all_goals rfl

theorem add_block_device_frame (svc : VmmService) (vmm : Vmm) (cfg : BlockDeviceConfigInfo) :
    (svc.add_block_device vmm cfg).2.1 = svc := by
  unfold VmmService.add_block_device
  repeat' split
  all_goals rfl

theorem update_blk_rate_limiters_frame (svc : VmmService) (vmm : Vmm)
    (cfg : BlockDeviceConfigUpdateInfo) : (svc.update_blk_rate_limiters vmm cfg).2.1 = svc := by
  unfold VmmService.update_blk_rate_limiters
  repeat' split
  all_goals rfl

theorem remove_block_device_frame (svc : VmmService) (vmm : Vmm) (drive_id : String) :
    (svc.remove_block_device vmm drive_id).2.1 = svc := by
  unfold VmmService.remove_block_device
  repeat' split
  all_goals rfl

theorem add_virtio_net_device_frame (svc : VmmService) (vmm : Vmm)
    (cfg : VirtioNetDeviceConfigInfo) : (svc.add_virtio_net_device vmm cfg).2.1 = svc := by
  unfold VmmService.add_virtio_net_device
  repeat' split
  all_goals rfl

theorem update_net_rate_limiters_frame (svc : VmmService) (vmm : Vmm)
    (cfg : VirtioNetDeviceConfigUpdateInfo) : (svc.update_net_rate_limiters vmm cfg).2.1 = svc := by
  unfold VmmService.update_net_rate_limiters
  repeat' split
  all_goals rfl

theorem add_fs_device_frame (svc : VmmService) (vmm : Vmm) (cfg : FsDeviceConfigInfo) :
    (svc.add_fs_device vmm cfg).2.1 = svc := by
  unfold VmmService.add_fs_device
  repeat' split
  all_goals rfl

theorem manipulate_fs_backend_fs_frame (svc : VmmService) (vmm : Vmm) (cfg : FsMountConfigInfo) :
    (svc.manipulate_fs_backend_fs vmm cfg).2.1 = svc := by
  unfold VmmService.manipulate_fs_backend_fs
  repeat' split
  all_goals rfl

theorem update_fs_rate_limiters_frame (svc : VmmService) (vmm : Vmm)
    (cfg : FsDeviceConfigUpdateInfo) : (svc.update_fs_rate_limiters vmm cfg).2.1 = svc := by
  unfold VmmService.update_fs_rate_limiters
  repeat' split
  all_goals rfl

/-- A failed `set_vm_configuration` leaves the whole service state (and thus
the cached machine configuration) untouched. -/
theorem set_vm_configuration_error_frame (svc : VmmService) (vmm : Vmm)
    (mc : VmConfigInfo) (e : VmmActionError)
    (h : (svc.set_vm_configuration vmm mc).1 = Except.error e) :
    (svc.set_vm_configuration vmm mc).2.1 = svc := by
  unfold VmmService.set_vm_configuration at h ⊢
  cases hvm : vmm.vm with
  | none => rfl
  | some vm =>
    rw [hvm] at h
    by_cases hinit : vm.initialized
    · simp [hinit]
    · simp only [Bool.not_eq_true] at hinit
      simp only [hinit, if_false] at h ⊢
      cases hmerge : vm_config_merge vm.instance_id vm.config mc with
      | error e2 => simp [hmerge]
      | ok c =>
        rw [hmerge] at h
        exact Except.noConfusion h

/-- Dispatching any action other than `SetVmConfiguration` leaves the service
state untouched. -/
theorem run_vmm_action_cache_frame (svc : VmmService) (vmm : Vmm) (a : VmmAction)
    (hset : ∀ mc, a ≠ VmmAction.SetVmConfiguration mc) :
    (svc.run_vmm_action vmm a).2.1 = svc := by
  cases a with
  | ConfigureBootSource cfg => exact configure_boot_source_frame svc vmm cfg
  | StartMicroVm => exact start_microvm_frame svc vmm
  | ShutdownMicroVm => rfl
  | GetVmConfiguration => rfl
  | SetVmConfiguration mc => exact absurd rfl (hset mc)
  | InsertVsockDevice cfg => exact add_vsock_device_frame svc vmm cfg
  | InsertBlockDevice cfg => exact add_block_device_frame svc vmm cfg
  | RemoveBlockDevice drive_id => exact remove_block_device_frame svc vmm drive_id
  | UpdateBlockDevice cfg => exact update_blk_rate_limiters_frame svc vmm cfg
  | InsertNetworkDevice cfg => exact add_virtio_net_device_frame svc vmm cfg
  | UpdateNetworkInterface cfg => exact update_net_rate_limiters_frame svc vmm cfg
  | InsertFsDevice cfg => exact add_fs_device_frame svc vmm cfg
  | ManipulateFsBackendFs cfg => exact manipulate_fs_backend_fs_frame svc vmm cfg
  | UpdateFsDevice cfg => exact update_fs_rate_limiters_frame svc vmm cfg

/-- Claim C10: the dispatcher's cached machine configuration starts as the
default configuration at service creation; it is left unchanged by every
action other than `SetVmConfiguration` and by every failed
`SetVmConfiguration`; and `GetVmConfiguration` always answers with exactly the
cached configuration. -/
theorem machine_config_cache_claim :
    VmmService.new.machine_config = VmConfigInfo.default ∧
    (∀ (svc : VmmService) (vmm : Vmm) (a : VmmAction),
      (∀ mc, a ≠ VmmAction.SetVmConfiguration mc) →
        ((svc.run_vmm_action vmm a).2.1).machine_config = svc.machine_config) ∧
    (∀ (svc : VmmService) (vmm : Vmm) (mc : VmConfigInfo) (e : VmmActionError),
      (svc.run_vmm_action vmm (VmmAction.SetVmConfiguration mc)).1 = Except.error e →
        ((svc.run_vmm_action vmm (VmmAction.SetVmConfiguration mc)).2.1).machine_config
          = svc.machine_config) ∧
    (∀ (svc : VmmService) (vmm : Vmm),
      (svc.run_vmm_action vmm VmmAction.GetVmConfiguration).1 =
        Except.ok (.MachineConfiguration svc.machine_config)) := by
  refine ⟨rfl, ?_, ?_, fun svc vmm => rfl⟩
  · intro svc vmm a hset
    rw [run_vmm_action_cache_frame svc vmm a hset]
  · intro svc vmm mc e h
    rw [show (svc.run_vmm_action vmm (VmmAction.SetVmConfiguration mc)).2.1 =
      (svc.set_vm_configuration vmm mc).2.1 from rfl,
      set_vm_configuration_error_frame svc vmm mc e h]

/-- Witness for C10: a shutdown action and a failed set-configuration action
both leave the sample dispatcher's cache unchanged. -/
theorem machine_config_cache_claim_witness :
    ((sampleSvc.run_vmm_action sampleVmm VmmAction.ShutdownMicroVm).2.1).machine_config
      = sampleSvc.machine_config ∧
    ((sampleSvc.run_vmm_action sampleVmm
        (VmmAction.SetVmConfiguration { VmConfigInfo.default with vcpu_count := 0 })).2.1).machine_config
      = sampleSvc.machine_config :=
  ⟨machine_config_cache_claim.2.1 sampleSvc sampleVmm VmmAction.ShutdownMicroVm
     (fun _ h => VmmAction.noConfusion h),
   machine_config_cache_claim.2.2.1 sampleSvc sampleVmm
     { VmConfigInfo.default with vcpu_count := 0 }
     (.MachineConfig (.InvalidVcpuCount 0)) (by decide)⟩
